import Mathlib

/-
Shallow embedding of src/opencv_with_users.py (OCR_Recognition repository).

External collaborators (the HTTP transport, the MongoDB store's insert
failures, the camera device, the interactive prompts) are modelled as
explicit inputs to the embedded functions; everything else is translated
directly from the Python source.
-/

/-- Python exceptions that the embedded code can raise. -/
inductive PyError where
  | valueError (msg : String)
  | runtimeError (msg : String)
  | keyError
  | indexError
  | typeError
  | jsonDecodeError
deriving DecidableEq, Repr

/-- JSON values, the possible results of response.json(). -/
inductive Json where
  | null
  | bool (b : Bool)
  | num (n : Int)
  | str (s : String)
  | arr (elems : List Json)
  | obj (fields : List (String × Json))
deriving Repr

/-- Python truthiness of a JSON value (bool(x) for the corresponding
Python object): None, False, 0, empty string, empty list and empty dict
are falsy. -/
def Json.falsy : Json → Bool
  | .null => true
  | .bool b => !b
  | .num n => n == 0
  | .str s => s.isEmpty
  | .arr xs => xs.isEmpty
  | .obj fs => fs.isEmpty

/-- The Python expression (key in j).  For a dict it is key membership;
for a list, membership of the string among the elements (string equality
only, since == between a str and a non-str is False); for a string,
substring containment; for the remaining values Python raises TypeError. -/
def Json.keyMem (j : Json) (key : String) : Except PyError Bool :=
  match j with
  | .obj fs => .ok (fs.any (fun f => f.fst == key))
  | .arr xs => .ok (xs.any (fun x => match x with | .str s => s == key | _ => false))
  | .str s => .ok (decide (List.IsInfix key.data s.data))
  | _ => .error .typeError

/-- The Python expression j[key] for a string key: dict lookup
(KeyError when absent), TypeError on any other value. -/
def Json.index (j : Json) (key : String) : Except PyError Json :=
  match j with
  | .obj fs =>
    match fs.find? (fun f => f.fst == key) with
    | some f => .ok f.snd
    | none => .error .keyError
  | _ => .error .typeError

/-- The Python expression j[0]: first element of a list (IndexError when
empty), first character of a string, KeyError on a dict without the key 0
(our dicts have only string keys), TypeError otherwise. -/
def Json.index0 : Json → Except PyError Json
  | .arr [] => .error .indexError
  | .arr (x :: _) => .ok x
  | .str s =>
    match s.data with
    | [] => .error .indexError
    | c :: _ => .ok (.str (String.mk [c]))
  | .obj _ => .error .keyError
  | _ => .error .typeError

/-- Lines 70-76 of upload_and_extract_content: result = response.json()
already happened; check ParsedResults and return the text.

  if 'ParsedResults' not in result or not result['ParsedResults']:
      print('Invalid response structure:', result)
      return None
  text = result['ParsedResults'][0]['ParsedText']
  return text

The print is a side effect with no bearing on the returned value. -/
def validate_body (result : Json) : Except PyError (Option Json) :=
  match result.keyMem "ParsedResults" with
  | .error e => .error e
  | .ok mem =>
    if !mem then
      .ok none
    else
      match result.index "ParsedResults" with
      | .error e => .error e
      | .ok pr =>
        if pr.falsy then
          .ok none
        else
          match pr.index0 with
          | .error e => .error e
          | .ok first =>
            match first.index "ParsedText" with
            | .error e => .error e
            | .ok text => .ok (some text)

/-- The transport response delivered by requests.post: a status code and
the parsed body that response.json() would yield (none when the body is
not valid JSON, in which case calling .json() raises JSONDecodeError). -/
structure HttpResponse where
  status_code : Nat
  json : Option Json

/-- Python truthiness of an optional-string argument: None and the empty
string are falsy. -/
def pyTruthy : Option String → Bool
  | none => false
  | some s => !s.isEmpty

/-- upload_and_extract_content(image_url, local_file_path, api_key, language).

The requests.post call is an external collaborator, so the transport
response is an input.  Both request branches (multipart file upload when
local_file_path is truthy, url-encoded form otherwise) feed the same
response handling, translated from lines 44-76:

  if not api_key: raise ValueError("API key is required")
  if not image_url and not local_file_path:
      raise ValueError("Either image URL or local file path must be provided")
  ... requests.post ...
  if response.status_code == 200: error_handler.SUCCESS
  elif response.status_code == 400: error_handler.BAD_REQUEST
  else: error_handler.SERVER_ERROR; return None
  result = response.json()
  ...validate body...

The error_handler attribute reads have no effect on the result. -/
def upload_and_extract_content (image_url local_file_path api_key : Option String)
    (response : HttpResponse) : Except PyError (Option Json) :=
  if !pyTruthy api_key then
    .error (.valueError "API key is required")
  else if !pyTruthy image_url && !pyTruthy local_file_path then
    .error (.valueError "Either image URL or local file path must be provided")
  else if response.status_code == 200 || response.status_code == 400 then
    match response.json with
    | none => .error .jsonDecodeError
    | some result => validate_body result
  else
    .ok none

/-- One document of the users collection: username, password, and the
accumulated extracted_content records.  Each record pushed by the
pipeline is a dict with a single text field, so a record is its text. -/
structure UserDoc where
  username : String
  password : String
  extracted_content : List String
deriving DecidableEq, Repr

/-- user_collection.find_one with filter on username: the first matching
document, in insertion order. -/
def find_one_username (store : List UserDoc) (u : String) : Option UserDoc :=
  store.find? (fun d => d.username == u)

/-- user_collection.find_one with filter on username and password. -/
def find_one_credentials (store : List UserDoc) (u p : String) : Option UserDoc :=
  store.find? (fun d => d.username == u && d.password == p)

/-- The Python idiom (arg or prompt()): the argument when it is truthy
(not None, not empty), otherwise the value read from the interactive
prompt.  The Bool records whether the prompt was consulted (Python
short-circuits, so input()/getpass() runs only in the fallback case). -/
def pyOr (arg : Option String) (prompted : String) : String × Bool :=
  match arg with
  | none => (prompted, true)
  | some s => if s.isEmpty then (prompted, true) else (s, false)

/-- The outcome of one create_user call: the returned pair or the raised
exception, the users collection afterwards, and whether any interactive
prompt was consulted. -/
structure CreateOutcome where
  result : Except PyError (String × String)
  store : List UserDoc
  used_prompt : Bool
deriving Repr

/-- create_user(user_input, password_input), lines 117-132.

  try:
      username = user_input or input("Enter your username: ")
      password = password_input or getpass.getpass("Enter your password: ")
      if user_collection.find_one(.username.): raise RuntimeError("User already exists.")
      user_collection.insert_one(.username, password.)
      return username, password
  except Exception as e:
      print(f"Error: e"); raise RuntimeError("User already exists.")

Every exception raised inside the try block, the duplicate-name
RuntimeError as well as any error raised by the store's insert_one, is
caught and re-raised as RuntimeError("User already exists.").
insert_failure models insert_one raising (an external store fault);
prompt_user/prompt_password model what input()/getpass() would return. -/
def create_user (store : List UserDoc) (user_input password_input : Option String)
    (prompt_user prompt_password : String) (insert_failure : Option PyError) : CreateOutcome :=
  let u := pyOr user_input prompt_user
  let p := pyOr password_input prompt_password
  if (find_one_username store u.1).isSome then
    ⟨.error (.runtimeError "User already exists."), store, u.2 || p.2⟩
  else
    match insert_failure with
    | some _ => ⟨.error (.runtimeError "User already exists."), store, u.2 || p.2⟩
    | none => ⟨.ok (u.1, p.1), store ++ [⟨u.1, p.1, []⟩], u.2 || p.2⟩

/-- login(user_input, password_input, input_function), lines 151-163.

  while True:
      ...
      username = user_input or input("Enter your username: ")
      password = password_input or getpass.getpass("Enter your password: ")
      user_data = user_collection.find_one(.username, password.)
      if user_data: return username
      else: print("Unauthorized. Please check your username and password.")

The loop body never raises and never breaks: it either returns the
username on a credential match or prints and iterates again.  prompts
models the successive interactive inputs, one pair per iteration, and
doubles as fuel: some u means the call returned u within that many
iterations, none means it was still looping after them.  (The dead
assignment guarded by test_pytestcv.test_login is overwritten on the
next line and is omitted.) -/
def login (store : List UserDoc) (user_input password_input : Option String) :
    List (String × String) → Option String
  | [] => none
  | (pu, pp) :: rest =>
    let username := (pyOr user_input pu).1
    let password := (pyOr password_input pp).1
    if (find_one_credentials store username password).isSome then
      some username
    else
      login store user_input password_input rest

/-- The camera device as cv2 exposes it to capture_image: whether
VideoCapture(0).isOpened(), whether cap.read() returns ret = True, and
the frame it would deliver (an opaque buffer, modelled by a Nat tag). -/
structure CameraDevice where
  opens : Bool
  read_ret : Bool
  frame : Nat
deriving DecidableEq, Repr

/-- What a capture_image call produced: the returned frame (none when
the function returned None) and whether cap.release() was called before
returning. -/
structure CaptureResult where
  frame : Option Nat
  released : Bool
deriving DecidableEq, Repr

/-- capture_image(), lines 89-100.

  try:
      cap = cv2.VideoCapture(0)
      if not cap.isOpened(): raise RuntimeError("Could not open camera.")
      ret, frame = cap.read()
      if not ret: raise RuntimeError("Could not read frame.")
      cap.release()
      return frame
  except Exception as e:
      print(f"Error: e"); return None

cap.release() sits after both raise sites, so when either RuntimeError
fires, control jumps to the except handler and returns None with the
device still unreleased. -/
def capture_image (cam : CameraDevice) : CaptureResult :=
  if !cam.opens then
    ⟨none, false⟩
  else if !cam.read_ret then
    ⟨none, false⟩
  else
    ⟨some cam.frame, true⟩

/-- Python str.replace on character lists: scan left to right, replace
each non-overlapping occurrence of pat with rep.  The fuel argument is
structural bookkeeping only; every step consumes at least one character,
so fuel = length of the scanned list never runs out. -/
def replaceFuel (pat rep : List Char) : Nat → List Char → List Char
  | _, [] => []
  | 0, s => s
  | Nat.succ n, c :: cs =>
    if List.isPrefixOf pat (c :: cs) then
      rep ++ replaceFuel pat rep n (List.drop pat.length (c :: cs))
    else
      c :: replaceFuel pat rep n cs

/-- Python s.replace(pat, rep) for a non-empty pat (the empty-pattern
case, where Python interleaves rep between characters, never occurs in
the source: the patterns are the newline and carriage-return characters). -/
def pyReplace (s pat rep : String) : String :=
  if pat.data.isEmpty then s
  else String.mk (replaceFuel pat.data rep.data s.data.length s.data)

/-- Line 198: extracted_content.replace(chr 10, empty).replace(chr 13, empty). -/
def clean_text (s : String) : String :=
  pyReplace (pyReplace s "\n" "") "\r" ""

/-- A regex word character, the class matched by backslash-w and the one
whose absence makes a backslash-b boundary. -/
def isWordChar (c : Char) : Bool :=
  (Char.isAlpha c) || (Char.isDigit c) || c == '_'

/-- The maximal runs of word characters in a string, in order.  A match
of a pattern bracketed by word boundaries is exactly such a run whose
characters all belong to the bracketed class, because inside a run there
is no boundary and at its two ends there is one. -/
def wordRuns (s : String) : List String :=
  let step := fun (acc : List String × String) (c : Char) =>
    if isWordChar c then (acc.1, acc.2.push c)
    else if acc.2.isEmpty then (acc.1, "") else (acc.1 ++ [acc.2], "")
  let fin := s.data.foldl step ([], "")
  if fin.2.isEmpty then fin.1 else fin.1 ++ [fin.2]

/-- Line 202: re.findall of one-or-more ASCII letters between word
boundaries — the maximal word-character runs made of letters only. -/
def findWords (s : String) : List String :=
  (wordRuns s).filter (fun r => r.data.all Char.isAlpha)

/-- Line 203: re.findall of one-or-more decimal digits between word
boundaries — the maximal word-character runs made of digits only. -/
def findIntegers (s : String) : List String :=
  (wordRuns s).filter (fun r => r.data.all Char.isDigit)

/-- user_collection.update_one with a username filter and a push of one
text record onto extracted_content: update_one mutates the first
matching document only and is a no-op when none matches. -/
def append_content (store : List UserDoc) (u text : String) : List UserDoc :=
  match store with
  | [] => []
  | d :: rest =>
    if d.username == u then
      { d with extracted_content := d.extracted_content ++ [text] } :: rest
    else
      d :: append_content rest u text

/-- What the main-block pipeline derives from one extraction: the store
after the push, and the reported word and integer lists. -/
structure PipelineReport where
  store : List UserDoc
  words : List String
  integers : List String
deriving DecidableEq, Repr

/-- Lines 197-208 of the main block, from the point where
upload_and_extract_content returned a non-None extracted_content:

  cleaned_content = extracted_content.replace(chr 10, empty).replace(chr 13, empty)
  extracted_array_content = .text: cleaned_content.
  user_collection.update_one(.username., .push extracted_content record.)
  words = re.findall(letters pattern, extracted_content)
  integers = re.findall(digits pattern, extracted_content)

The push stores the cleaned text; the two findall calls read the
unmodified extracted_content. -/
def ingest_extracted_content (store : List UserDoc) (username extracted_content : String) :
    PipelineReport :=
  let cleaned_content := clean_text extracted_content
  ⟨append_content store username cleaned_content,
   findWords extracted_content,
   findIntegers extracted_content⟩

/-- Replacing every occurrence of a one-character pattern with the empty
string is filtering that character out. -/
theorem replaceFuel_single_filter (c : Char) :
    ∀ (n : Nat) (s : List Char), s.length ≤ n →
      replaceFuel [c] [] n s = s.filter (fun x => x != c) := by
  intro n
  induction n with
  | zero =>
    intro s hs
    cases s with
    | nil => rfl
    | cons a as => exact absurd hs (by simp)
  | succ n ih =>
    intro s hs
    cases s with
    | nil => rfl
    | cons a as =>
      by_cases hca : c = a
      · subst hca
        simp only [replaceFuel, List.isPrefixOf, beq_self_eq_true, Bool.true_and,
          List.isPrefixOf_nil_left, if_true, List.length_cons, List.drop_succ_cons,
          List.drop_zero, List.nil_append, List.filter_cons, bne_self_eq_false]
        exact ih as (Nat.le_of_succ_le_succ hs)
      · have hba : (c == a) = false := beq_eq_false_iff_ne.mpr hca
        have hab : (a != c) = true := bne_iff_ne.mpr (fun h => hca h.symm)
        simp only [replaceFuel, List.isPrefixOf, hba, Bool.false_and, Bool.false_eq_true,
          if_false, List.filter_cons, hab, if_true]
        rw [ih as (Nat.le_of_succ_le_succ hs)]

/-- pyReplace with a one-character pattern and an empty replacement
filters that character out of the string. -/
theorem pyReplace_single_filter (c : Char) (pat s : String) (hp : pat.data = [c]) :
    pyReplace s pat "" = String.mk (s.data.filter (fun x => x != c)) := by
  unfold pyReplace
  rw [hp]
  rw [if_neg (by simp)]
  exact congrArg String.mk (replaceFuel_single_filter c s.data.length s.data (Nat.le_refl _))

/-- clean_text removes exactly the newline and carriage-return
characters and keeps every other character in order. -/
theorem clean_text_eq_filter (s : String) :
    clean_text s = String.mk (s.data.filter (fun c => c != '\n' && c != '\r')) := by
  show pyReplace (pyReplace s "\n" "") "\r" "" = _
  rw [pyReplace_single_filter '\n' "\n" s rfl]
  rw [pyReplace_single_filter '\r' "\r" ⟨s.data.filter (fun x => x != '\n')⟩ rfl]
  show String.mk ((s.data.filter (fun x => x != '\n')).filter (fun x => x != '\r')) = _
  rw [List.filter_filter]
  exact congrArg String.mk (List.filter_congr (fun a _ => Bool.and_comm _ _))

/-- C7: the record the pipeline appends to the identity's
extracted_content is the extracted text with every newline and
carriage-return character removed, while the reported word and integer
lists are computed from the unmodified extracted text; in particular,
extracting "Hello" CR LF "World" stores "HelloWorld" and reports the
words "Hello" and "World". -/
theorem ingest_stores_clean_reports_raw (u p : String) (ec : List String)
    (rest : List UserDoc) (s : String) :
    (ingest_extracted_content (⟨u, p, ec⟩ :: rest) u s =
      ⟨⟨u, p, ec ++ [clean_text s]⟩ :: rest, findWords s, findIntegers s⟩) ∧
    (clean_text s = String.mk (s.data.filter (fun c => c != '\n' && c != '\r'))) ∧
    (ingest_extracted_content [⟨"u1", "p1", []⟩] "u1" "Hello\r\nWorld" =
      ⟨[⟨"u1", "p1", ["HelloWorld"]⟩], ["Hello", "World"], []⟩) := by
  refine ⟨?_, clean_text_eq_filter s, rfl⟩
  show PipelineReport.mk (append_content (⟨u, p, ec⟩ :: rest) u (clean_text s))
      (findWords s) (findIntegers s) = _
  simp [append_content]

/-- C8 (code bug): capture_image does not release the camera on its
failure paths.  When the device opens but the frame read fails, and when
the device does not open at all, the function returns None with the
device never released; only the success path calls cap.release(). -/
theorem capture_image_release_paths :
    (capture_image ⟨true, false, 0⟩ = ⟨none, false⟩) ∧
    (capture_image ⟨false, true, 0⟩ = ⟨none, false⟩) ∧
    (capture_image ⟨true, true, 7⟩ = ⟨some 7, true⟩) :=
  ⟨rfl, rfl, rfl⟩

/-- C9 counterexample: create_user called with an explicit empty
username does not fail with InvalidArgument — it falls back to the
interactive prompt (here answering "alice") and creates that identity. -/
theorem create_empty_username_falls_back :
    ((create_user [] (some "") (some "pw") "alice" "zz" none).result = .ok ("alice", "pw")) ∧
    ((create_user [] (some "") (some "pw") "alice" "zz" none).used_prompt = true) ∧
    ((create_user [] (some "") (some "pw") "alice" "zz" none).store = [⟨"alice", "pw", []⟩]) :=
  ⟨rfl, rfl, rfl⟩

/-- C9 (amended): create_user performs no emptiness validation.  An
empty username argument behaves exactly like an absent one — the value
is taken from the interactive prompt — and no call to create_user ever
raises a ValueError, for any arguments, store state or insert outcome. -/
theorem create_user_no_empty_validation (store : List UserDoc) (p_inp : Option String)
    (pu pp : String) (ins : Option PyError) :
    (create_user store (some "") p_inp pu pp ins = create_user store none p_inp pu pp ins) ∧
    ((create_user store (some "") p_inp pu pp ins).used_prompt = true) ∧
    (∀ (u_inp : Option String) (m : String),
      (create_user store u_inp p_inp pu pp ins).result ≠ .error (.valueError m)) := by
  refine ⟨rfl, ?_, ?_⟩
  · unfold create_user
    dsimp only
    split
    · rfl
    · split
      · rfl
      · rfl
  · intro u_inp m
    unfold create_user
    dsimp only
    split
    · simp
    · split
      · simp
      · simp

/-- C10: every failure inside create_user, the duplicate-username check
as well as any error raised by the store's insert_one, is re-raised as
RuntimeError with the message "User already exists.": the call either
returns a pair or raises exactly that error, and when insert_one raises,
the underlying error never reaches the caller. -/
theorem create_user_failures_all_already_exists (store : List UserDoc)
    (u_inp p_inp : Option String) (pu pp : String) (ins : Option PyError) :
    ((create_user store u_inp p_inp pu pp ins).result
        = .error (.runtimeError "User already exists.") ∨
      ∃ v, (create_user store u_inp p_inp pu pp ins).result = .ok v) ∧
    (∀ e : PyError, (create_user store u_inp p_inp pu pp (some e)).result
        = .error (.runtimeError "User already exists.")) := by
  constructor
  · unfold create_user
    dsimp only
    split
    · exact Or.inl rfl
    · split
      · exact Or.inl rfl
      · exact Or.inr ⟨_, rfl⟩
  · intro e
    unfold create_user
    dsimp only
    split
    · rfl
    · rfl

/-- A non-empty string is not isEmpty. -/
theorem isEmpty_false_of_ne (s : String) (h : s ≠ "") : s.isEmpty = false := by
  cases hq : s.isEmpty
  · rfl
  · exact absurd ((String.isEmpty_iff s).mp hq) h

/-- Appending a fresh element keeps a list without duplicates. -/
theorem nodup_append_singleton {l : List String} {a : String}
    (h : l.Nodup) (ha : a ∉ l) : (l ++ [a]).Nodup := by
  simp [List.nodup_append, h, ha]

/-- When the searched username is absent from a store, it is absent from
the username column. -/
theorem username_not_mem_of_find_none (st : List UserDoc) (u : String)
    (h : find_one_username st u = none) : u ∉ st.map UserDoc.username := by
  intro hmem
  rcases List.mem_map.mp hmem with ⟨d, hd, hdu⟩
  have hall := List.find?_eq_none.mp h d hd
  exact hall (beq_iff_eq.mpr hdu)

/-- C4: creating a username already present fails with the
duplicate-user error and leaves the store untouched (so the stored
password is unchanged), and username uniqueness is preserved by every
store-mutating operation: any create_user call and any append_content
call map a duplicate-free username column to a duplicate-free one. -/
theorem create_duplicate_rejected (store : List UserDoc) (u p pu pp : String)
    (ins : Option PyError)
    (hu : u ≠ "") (hdup : (find_one_username store u).isSome = true) :
    ((create_user store (some u) (some p) pu pp ins).result
        = .error (.runtimeError "User already exists.")) ∧
    ((create_user store (some u) (some p) pu pp ins).store = store) ∧
    (∀ (st : List UserDoc) (ui pi2 : Option String) (a b : String) (i2 : Option PyError),
        (st.map UserDoc.username).Nodup →
        (((create_user st ui pi2 a b i2).store).map UserDoc.username).Nodup) ∧
    (∀ (st : List UserDoc) (x y : String),
        (append_content st x y).map UserDoc.username = st.map UserDoc.username) := by
  have hue : u.isEmpty = false := isEmpty_false_of_ne u hu
  have hpy : pyOr (some u) pu = (u, false) := by simp [pyOr, hue]
  refine ⟨?_, ?_, ?_, ?_⟩
  · unfold create_user
    dsimp only
    rw [hpy]
    dsimp only
    rw [if_pos hdup]
  · unfold create_user
    dsimp only
    rw [hpy]
    dsimp only
    rw [if_pos hdup]
  · intro st ui pi2 a b i2 hnd
    unfold create_user
    dsimp only
    split
    · exact hnd
    · split
      · exact hnd
      · next hfind _ =>
        show ((st ++ [UserDoc.mk (pyOr ui a).1 (pyOr pi2 b).1 []]).map UserDoc.username).Nodup
        rw [List.map_append]
        refine nodup_append_singleton hnd ?_
        refine username_not_mem_of_find_none st _ ?_
        exact Option.not_isSome_iff_eq_none.mp (fun hs => hfind hs)
  · intro st x y
    induction st with
    | nil => rfl
    | cons d rest ih =>
      unfold append_content
      split
      · simp
      · simp only [List.map_cons]
        rw [ih]

/-- C5: creating a username not yet present succeeds, returning the
given pair, and a subsequent find on the resulting store returns an
identity with exactly that username and password (and no content yet). -/
theorem create_then_find (store : List UserDoc) (u p pu pp : String)
    (hu : u ≠ "") (hp : p ≠ "") (hnew : find_one_username store u = none) :
    ((create_user store (some u) (some p) pu pp none).result = .ok (u, p)) ∧
    (find_one_username (create_user store (some u) (some p) pu pp none).store u
        = some ⟨u, p, []⟩) := by
  have hue : u.isEmpty = false := isEmpty_false_of_ne u hu
  have hpe : p.isEmpty = false := isEmpty_false_of_ne p hp
  have hpyu : pyOr (some u) pu = (u, false) := by simp [pyOr, hue]
  have hpyp : pyOr (some p) pp = (p, false) := by simp [pyOr, hpe]
  have hcond : ¬((find_one_username store u).isSome = true) := by
    rw [hnew]
    simp
  unfold create_user
  dsimp only
  rw [hpyu, hpyp]
  dsimp only
  rw [if_neg hcond]
  refine ⟨rfl, ?_⟩
  show find_one_username (store ++ [⟨u, p, []⟩]) u = some ⟨u, p, []⟩
  unfold find_one_username
  rw [List.find?_append]
  unfold find_one_username at hnew
  rw [hnew]
  simp [List.find?]

/-- C6 counterexample: with explicit arguments and a non-matching
password, login does not return or raise on the first failed attempt —
after five full loop iterations it still has not produced a result
(the loop runs forever), whereas matching credentials return on the
first iteration. -/
theorem login_wrong_password_keeps_looping :
    (login [⟨"u1", "p1", []⟩] (some "u1") (some "bad")
      [("a", "b"), ("a", "b"), ("a", "b"), ("a", "b"), ("a", "b")] = none) ∧
    (login [⟨"u1", "p1", []⟩] (some "u1") (some "p1") [("a", "b")] = some "u1") :=
  ⟨rfl, rfl⟩

/-- C6 (amended): for credentials stored by create, login with explicit
matching arguments succeeds on the first iteration and returns the
username; with explicit non-matching arguments the loop never returns,
however many iterations it is allowed to run. -/
theorem login_first_match_or_never (store : List UserDoc) (u p : String)
    (hu : u ≠ "") (hp : p ≠ "") :
    ((find_one_credentials store u p).isSome = true →
      ∀ (pr : String × String) (rest : List (String × String)),
        login store (some u) (some p) (pr :: rest) = some u) ∧
    (find_one_credentials store u p = none →
      ∀ prompts : List (String × String),
        login store (some u) (some p) prompts = none) := by
  have hue : u.isEmpty = false := isEmpty_false_of_ne u hu
  have hpe : p.isEmpty = false := isEmpty_false_of_ne p hp
  have h1 : ∀ a, (pyOr (some u) a).1 = u := fun a => by simp [pyOr, hue]
  have h2 : ∀ b, (pyOr (some p) b).1 = p := fun b => by simp [pyOr, hpe]
  constructor
  · intro hmatch pr rest
    cases pr with
    | mk a b =>
      simp only [login, h1 a, h2 b]
      rw [if_pos hmatch]
  · intro hnone prompts
    induction prompts with
    | nil => rfl
    | cons pr rest ih =>
      cases pr with
      | mk a b =>
        simp only [login, h1 a, h2 b]
        rw [hnone]
        simp only [Option.isSome_none, Bool.false_eq_true, if_false]
        exact ih

/-- keyMem raises TypeError at worst, never a ValueError. -/
theorem keyMem_no_valueError (j : Json) (k m : String) :
    j.keyMem k ≠ .error (.valueError m) := by
  cases j <;> simp [Json.keyMem]

/-- Subscripting with a string key raises KeyError or TypeError, never a
ValueError. -/
theorem index_no_valueError (j : Json) (k m : String) :
    j.index k ≠ .error (.valueError m) := by
  cases j with
  | obj fs =>
    rcases hf : fs.find? (fun f => f.fst == k) with _ | f <;> simp [Json.index, hf]
  | null => simp [Json.index]
  | bool b => simp [Json.index]
  | num n => simp [Json.index]
  | str s => simp [Json.index]
  | arr xs => simp [Json.index]

/-- Subscripting with 0 raises IndexError, KeyError or TypeError, never
a ValueError. -/
theorem index0_no_valueError (j : Json) (m : String) :
    j.index0 ≠ .error (.valueError m) := by
  cases j with
  | arr xs => cases xs <;> simp [Json.index0]
  | str s => cases hd : s.data with
    | nil => simp [Json.index0, hd]
    | cons c cs => simp [Json.index0, hd]
  | null => simp [Json.index0]
  | bool b => simp [Json.index0]
  | num n => simp [Json.index0]
  | obj fs => simp [Json.index0]

/-- Body validation can only fail with the errors of its subscripting
steps; it never raises a ValueError. -/
theorem validate_body_no_valueError (j : Json) (m : String) :
    validate_body j ≠ .error (.valueError m) := by
  intro h
  unfold validate_body at h
  split at h
  · next e heq =>
    injection h with h1
    subst h1
    exact keyMem_no_valueError j "ParsedResults" m heq
  · split at h
    · exact Except.noConfusion h
    · split at h
      · next e heq =>
        injection h with h1
        subst h1
        exact index_no_valueError j "ParsedResults" m heq
      · split at h
        · exact Except.noConfusion h
        · split at h
          · next e heq =>
            injection h with h1
            subst h1
            exact index0_no_valueError _ m heq
          · split at h
            · next e heq =>
              injection h with h1
              subst h1
              exact index_no_valueError _ "ParsedText" m heq
            · exact Except.noConfusion h

/-- With a valid api_key and at least one source, the argument checks
pass and the result is decided by the status code and body alone. -/
theorem upload_ok_branch (image_url local_file_path api_key : Option String)
    (response : HttpResponse)
    (hk : pyTruthy api_key = true)
    (hsrc : (pyTruthy image_url || pyTruthy local_file_path) = true) :
    upload_and_extract_content image_url local_file_path api_key response =
      if response.status_code == 200 || response.status_code == 400 then
        match response.json with
        | none => .error .jsonDecodeError
        | some result => validate_body result
      else
        .ok none := by
  have h2 : (!pyTruthy image_url && !pyTruthy local_file_path) = false := by
    rcases Bool.or_eq_true_iff.mp hsrc with h | h <;> simp [h]
  unfold upload_and_extract_content
  rw [hk, h2]
  rfl

/-- C1 counterexample: a 201 response with a perfectly well-formed body
is not parsed — the code compares the status to 200 exactly, so 201
falls into the ServerError branch and the call returns absent instead of
the ParsedText the claim requires for a 2xx status. -/
theorem ocr_status_201_not_parsed :
    (upload_and_extract_content (some "https://example.com/sample_image.jpg") none (some "key")
        ⟨201, some (.obj [("ParsedResults", .arr [.obj [("ParsedText", .str "Test content")]])])⟩
      = .ok none) ∧
    (upload_and_extract_content (some "https://example.com/sample_image.jpg") none (some "key")
        ⟨201, some (.obj [("ParsedResults", .arr [.obj [("ParsedText", .str "Test content")]])])⟩
      ≠ .ok (some (.str "Test content"))) :=
  ⟨rfl, fun h => Option.noConfusion (Except.ok.inj h)⟩

/-- C1 (amended): with a valid api_key and a provided source, the
response is classified by exact status code: on status 200 and on
status 400 the body is parsed as JSON and validated; on every other
status, the non-200 2xx codes included, the call returns absent
immediately and the body is never consulted (even an unparseable body
raises nothing). -/
theorem ocr_status_classification (image_url local_file_path api_key : Option String)
    (body : Option Json) (s : Nat)
    (hk : pyTruthy api_key = true)
    (hsrc : (pyTruthy image_url || pyTruthy local_file_path) = true) :
    (upload_and_extract_content image_url local_file_path api_key ⟨200, body⟩
        = match body with
          | none => .error .jsonDecodeError
          | some result => validate_body result) ∧
    (upload_and_extract_content image_url local_file_path api_key ⟨400, body⟩
        = match body with
          | none => .error .jsonDecodeError
          | some result => validate_body result) ∧
    (s ≠ 200 → s ≠ 400 →
      upload_and_extract_content image_url local_file_path api_key ⟨s, body⟩ = .ok none) := by
  refine ⟨?_, ?_, ?_⟩
  · rw [upload_ok_branch image_url local_file_path api_key _ hk hsrc]
    rfl
  · rw [upload_ok_branch image_url local_file_path api_key _ hk hsrc]
    rfl
  · intro h200 h400
    rw [upload_ok_branch image_url local_file_path api_key _ hk hsrc]
    have hc : ((⟨s, body⟩ : HttpResponse).status_code == 200
        || (⟨s, body⟩ : HttpResponse).status_code == 400) = false := by
      simp [h200, h400]
    rw [hc]
    rfl

/-- C1 witness: a 503 response is classified ServerError and the call
returns absent. -/
theorem ocr_status_classification_witness :
    upload_and_extract_content (some "u") none (some "k") ⟨503, some .null⟩ = .ok none :=
  (ocr_status_classification (some "u") none (some "k") (some .null) 503 rfl rfl).2.2
    (by decide) (by decide)

/-- C2 counterexample: with both an image URL and a local file path
provided, the call does not fail with the InvalidArgument the claim
requires for "any combination other than exactly one source" — it
proceeds (the local file branch wins) and here classifies the 500
response, returning absent. -/
theorem extract_both_sources_accepted :
    (upload_and_extract_content (some "https://example.com/a.jpg") (some "img.jpg") (some "key")
        ⟨500, none⟩ = .ok none) ∧
    (upload_and_extract_content (some "https://example.com/a.jpg") (some "img.jpg") (some "key")
        ⟨500, none⟩
      ≠ .error (.valueError "Either image URL or local file path must be provided")) :=
  ⟨rfl, fun h => Except.noConfusion h⟩

/-- C2 (amended): the call raises ValueError "API key is required"
exactly when api_key is absent or empty, regardless of sources; it
raises ValueError about the missing source exactly when neither source
is provided; and whenever at least one source is provided (one of them
or both) with a valid key, neither InvalidArgument error is raised. -/
theorem extract_argument_validation (image_url local_file_path api_key : Option String)
    (response : HttpResponse) :
    (pyTruthy api_key = false →
      upload_and_extract_content image_url local_file_path api_key response
        = .error (.valueError "API key is required")) ∧
    (pyTruthy api_key = true → pyTruthy image_url = false → pyTruthy local_file_path = false →
      upload_and_extract_content image_url local_file_path api_key response
        = .error (.valueError "Either image URL or local file path must be provided")) ∧
    (pyTruthy api_key = true → (pyTruthy image_url || pyTruthy local_file_path) = true →
      upload_and_extract_content image_url local_file_path api_key response
          ≠ .error (.valueError "API key is required") ∧
      upload_and_extract_content image_url local_file_path api_key response
          ≠ .error (.valueError "Either image URL or local file path must be provided")) := by
  refine ⟨?_, ?_, ?_⟩
  · intro hk
    unfold upload_and_extract_content
    rw [hk]
    rfl
  · intro hk hu hf
    unfold upload_and_extract_content
    rw [hk, hu, hf]
    rfl
  · intro hk hsrc
    rw [upload_ok_branch image_url local_file_path api_key response hk hsrc]
    constructor
    · split
      · split
        · exact fun h => PyError.noConfusion (Except.error.inj h)
        · exact fun h => validate_body_no_valueError _ _ h
      · exact fun h => Except.noConfusion h
    · split
      · split
        · exact fun h => PyError.noConfusion (Except.error.inj h)
        · exact fun h => validate_body_no_valueError _ _ h
      · exact fun h => Except.noConfusion h

/-- C2 witness: a missing key fails with the key error even with a
source given; a missing source fails with the source error; with a
source and a key present neither InvalidArgument fires. -/
theorem extract_argument_validation_witness :
    (upload_and_extract_content (some "example.jpg") none none ⟨200, some .null⟩
      = .error (.valueError "API key is required")) ∧
    (upload_and_extract_content none none (some "key") ⟨200, some .null⟩
      = .error (.valueError "Either image URL or local file path must be provided")) ∧
    (upload_and_extract_content (some "u") none (some "key") ⟨500, none⟩
      ≠ .error (.valueError "API key is required")) := by
  refine ⟨?_, ?_, ?_⟩
  · exact (extract_argument_validation (some "example.jpg") none none ⟨200, some .null⟩).1 rfl
  · exact (extract_argument_validation none none (some "key") ⟨200, some .null⟩).2.1 rfl rfl rfl
  · exact ((extract_argument_validation (some "u") none (some "key") ⟨500, none⟩).2.2 rfl rfl).1

/-- A dict body without the ParsedResults key validates to absent. -/
theorem validate_body_obj_absent (fs : List (String × Json))
    (h : fs.find? (fun f => f.fst == "ParsedResults") = none) :
    validate_body (.obj fs) = .ok none := by
  have hany : (fs.any (fun f => f.fst == "ParsedResults")) = false := by
    rw [Bool.eq_false_iff]
    intro ha
    rcases List.any_eq_true.mp ha with ⟨x, hx, hpx⟩
    exact (List.find?_eq_none.mp h x hx) hpx
  simp [validate_body, Json.keyMem, hany]

/-- A dict body whose ParsedResults value is falsy (an empty array in
particular) validates to absent. -/
theorem validate_body_obj_falsy (fs : List (String × Json)) (v : Json)
    (h : fs.find? (fun f => f.fst == "ParsedResults") = some ("ParsedResults", v))
    (hv : v.falsy = true) :
    validate_body (.obj fs) = .ok none := by
  have hp := List.find?_some h
  have hany : (fs.any (fun f => f.fst == "ParsedResults")) = true :=
    List.any_eq_true.mpr ⟨("ParsedResults", v), List.mem_of_find?_eq_some h, hp⟩
  simp [validate_body, Json.keyMem, hany, Json.index, h, hv]

/-- A dict body whose ParsedResults is a non-empty array whose first
element carries a ParsedText field validates to that text, unchanged. -/
theorem validate_body_obj_text (fs g : List (String × Json)) (rest : List Json) (t : Json)
    (h : fs.find? (fun f => f.fst == "ParsedResults")
        = some ("ParsedResults", .arr (.obj g :: rest)))
    (hg : g.find? (fun f => f.fst == "ParsedText") = some ("ParsedText", t)) :
    validate_body (.obj fs) = .ok (some t) := by
  have hp := List.find?_some h
  have hany : (fs.any (fun f => f.fst == "ParsedResults")) = true :=
    List.any_eq_true.mpr
      ⟨("ParsedResults", Json.arr (Json.obj g :: rest)), List.mem_of_find?_eq_some h, hp⟩
  simp [validate_body, Json.keyMem, hany, Json.index, h, Json.falsy, Json.index0, hg]

/-- C3: for every parsed dict body of a 200 response, the call returns
absent when the ParsedResults key is missing or its value is falsy
(absent or empty array), and returns the first element's ParsedText
verbatim otherwise. -/
theorem ocr_body_validation (image_url local_file_path api_key : Option String)
    (fs : List (String × Json))
    (hk : pyTruthy api_key = true)
    (hsrc : (pyTruthy image_url || pyTruthy local_file_path) = true) :
    (fs.find? (fun f => f.fst == "ParsedResults") = none →
      upload_and_extract_content image_url local_file_path api_key ⟨200, some (.obj fs)⟩
        = .ok none) ∧
    (∀ v : Json, fs.find? (fun f => f.fst == "ParsedResults") = some ("ParsedResults", v) →
      v.falsy = true →
      upload_and_extract_content image_url local_file_path api_key ⟨200, some (.obj fs)⟩
        = .ok none) ∧
    (∀ (g : List (String × Json)) (rest : List Json) (t : Json),
      fs.find? (fun f => f.fst == "ParsedResults")
          = some ("ParsedResults", .arr (.obj g :: rest)) →
      g.find? (fun f => f.fst == "ParsedText") = some ("ParsedText", t) →
      upload_and_extract_content image_url local_file_path api_key ⟨200, some (.obj fs)⟩
        = .ok (some t)) := by
  have hb : upload_and_extract_content image_url local_file_path api_key ⟨200, some (.obj fs)⟩
      = validate_body (.obj fs) :=
    (upload_ok_branch image_url local_file_path api_key ⟨200, some (.obj fs)⟩ hk hsrc).trans rfl
  refine ⟨?_, ?_, ?_⟩
  · intro h
    rw [hb]
    exact validate_body_obj_absent fs h
  · intro v h hv
    rw [hb]
    exact validate_body_obj_falsy fs v h hv
  · intro g rest t h hg
    rw [hb]
    exact validate_body_obj_text fs g rest t h hg

/-- C3 witness: an unrelated body and an empty ParsedResults both give
absent; a well-formed body gives its ParsedText. -/
theorem ocr_body_validation_witness :
    (upload_and_extract_content (some "https://example.com/sample_image.jpg") none (some "key")
        ⟨200, some (.obj [("InvalidKey", .str "InvalidValue")])⟩ = .ok none) ∧
    (upload_and_extract_content (some "https://example.com/sample_image.jpg") none (some "key")
        ⟨200, some (.obj [("ParsedResults", .arr [])])⟩ = .ok none) ∧
    (upload_and_extract_content (some "https://example.com/sample_image.jpg") none (some "key")
        ⟨200, some (.obj [("ParsedResults", .arr [.obj [("ParsedText", .str "Test content")]])])⟩
      = .ok (some (.str "Test content"))) := by
  refine ⟨?_, ?_, ?_⟩
  · exact (ocr_body_validation (some "https://example.com/sample_image.jpg") none (some "key")
      [("InvalidKey", .str "InvalidValue")] rfl rfl).1 rfl
  · exact (ocr_body_validation (some "https://example.com/sample_image.jpg") none (some "key")
      [("ParsedResults", .arr [])] rfl rfl).2.1 (.arr []) rfl rfl
  · exact (ocr_body_validation (some "https://example.com/sample_image.jpg") none (some "key")
      [("ParsedResults", .arr [.obj [("ParsedText", .str "Test content")]])] rfl rfl).2.2
      [("ParsedText", .str "Test content")] [] (.str "Test content") rfl rfl

/-- C4 witness: creating "bob" again with a different password fails
with the duplicate error and the stored document is untouched. -/
theorem create_duplicate_rejected_witness :
    ((create_user [⟨"bob", "pw", []⟩] (some "bob") (some "other") "x" "y" none).result
      = .error (.runtimeError "User already exists.")) ∧
    ((create_user [⟨"bob", "pw", []⟩] (some "bob") (some "other") "x" "y" none).store
      = [⟨"bob", "pw", []⟩]) := by
  have h := create_duplicate_rejected [⟨"bob", "pw", []⟩] "bob" "other" "x" "y" none
    (by decide) rfl
  exact ⟨h.1, h.2.1⟩

/-- C5 witness: creating "u1"/"p1" in an empty store succeeds and find
returns exactly that identity. -/
theorem create_then_find_witness :
    ((create_user [] (some "u1") (some "p1") "x" "y" none).result = .ok ("u1", "p1")) ∧
    (find_one_username (create_user [] (some "u1") (some "p1") "x" "y" none).store "u1"
      = some ⟨"u1", "p1", []⟩) :=
  create_then_find [] "u1" "p1" "x" "y" (by decide) (by decide) rfl

/-- C6 witness: matching credentials log in on the first iteration; a
wrong password leaves the loop running after the modelled iterations. -/
theorem login_first_match_or_never_witness :
    (login [⟨"u1", "p1", []⟩] (some "u1") (some "p1") [("a", "b")] = some "u1") ∧
    (login [⟨"u1", "p1", []⟩] (some "u1") (some "bad") [("a", "b"), ("c", "d")] = none) := by
  constructor
  · exact (login_first_match_or_never [⟨"u1", "p1", []⟩] "u1" "p1"
      (by decide) (by decide)).1 rfl ("a", "b") []
  · exact (login_first_match_or_never [⟨"u1", "p1", []⟩] "u1" "bad"
      (by decide) (by decide)).2 rfl [("a", "b"), ("c", "d")]

